import Mathlib

/-!
Shallow embedding of `src/mistral_ocr.py` (a linear OCR orchestration
script).  Pure data flow is modelled directly; the effects of the script
(file writes, network calls, stderr lines, log events, process exit) are
made explicit in the result values.  The external `datauri.parse` function
and the OS-level success of each byte write are parameters of the model,
since they are outside the repository.
-/

set_option autoImplicit false

namespace MistralOcr

/-- Decoded image payload bytes (Python `bytes`). -/
abbrev Bytes := List Nat

/-- An image object of the OCR response: attributes `id` and `image_base64`
(`image_base64` may be `None`, modelled as `none`). -/
structure OcrImage where
  id : String
  image_base64 : Option String
deriving Repr, DecidableEq

/-- A page of the OCR response: attributes `markdown` and `images`. -/
structure OcrPage where
  markdown : String
  images : List OcrImage
deriving Repr, DecidableEq

/-- The OCR response: attribute `pages`. -/
structure OcrResponse where
  pages : List OcrPage
deriving Repr, DecidableEq

/-- The local file system, as an association list from path to contents.
Directories are implicit (`mkdir` has no observable effect here). -/
abbrev FS := List (String × Bytes)

/-- Writing a file with `open(path, "wb")` truncates: any previous entry
for the same path is replaced. -/
def fsWrite (fs : FS) (p : String) (d : Bytes) : FS :=
  (p, d) :: fs.filter (fun e => e.1 ≠ p)

/-- Look up the contents of a file. -/
def fsRead (fs : FS) (p : String) : Option Bytes :=
  (fs.find? (fun e => e.1 = p)).map Prod.snd

/-- Per-image log events of `save_image` (warnings and recorded,
non-fatal errors). -/
inductive LogEvent where
  /-- the `image_base64` payload was `None` or the empty string -/
  | emptyImage (id : String)
  /-- `datauri.DataURIError` raised by `datauri.parse` -/
  | decodeError (id : String)
  /-- `IOError` raised while writing the image file -/
  | writeError (path : String)
deriving Repr, DecidableEq

/-- The external `datauri.parse`: either raises `DataURIError` (`.error`)
or yields the decoded `.data` bytes (`.ok`). -/
abbrev DataUriParse := String → Except Unit Bytes

/-- Whether the OS write of the given bytes to the given path succeeds
(`False` models an `IOError` from `open`/`write`). -/
abbrev WriteOk := String → Bytes → Bool

/-- Embedding of `save_image(image, output_dir)` (src lines 66-116).
Returns the updated file system and the log events of this call.  An
empty or absent payload is skipped with a warning; a `DataURIError` or an
`IOError` is logged and swallowed, so the function always returns. -/
def save_image (parse : DataUriParse) (writeOk : WriteOk) (image : OcrImage)
    (output_dir : String) (fs : FS) : FS × List LogEvent :=
  let output_path := output_dir ++ "/" ++ image.id
  match image.image_base64 with
  | none => (fs, [LogEvent.emptyImage image.id])
  | some s =>
    if s = "" then
      (fs, [LogEvent.emptyImage image.id])
    else
      match parse s with
      | Except.error _ => (fs, [LogEvent.decodeError image.id])
      | Except.ok data =>
        if writeOk output_path data then
          (fsWrite fs output_path data, [])
        else
          (fs, [LogEvent.writeError output_path])

/-- The inner `for image in page.images: save_image(image, output_dir)`
loop, threading the file system and collecting log events. -/
def saveImages (parse : DataUriParse) (writeOk : WriteOk) (output_dir : String) :
    List OcrImage → FS → FS × List LogEvent
  | [], fs => (fs, [])
  | img :: rest, fs =>
    let r1 := save_image parse writeOk img output_dir fs
    let r2 := saveImages parse writeOk output_dir rest r1.1
    (r2.1, r1.2 ++ r2.2)

/-- The `if hasattr(page, "images") and page.images:` guard around the
image loop (src lines 139-143); an empty image list is only logged. -/
def pageImagesSave (parse : DataUriParse) (writeOk : WriteOk) (output_dir : String)
    (page : OcrPage) (fs : FS) : FS × List LogEvent :=
  if page.images.isEmpty then (fs, [])
  else saveImages parse writeOk output_dir page.images fs

/-- The page loop of `create_markdown_file` (src lines 131-143): for each
page write `page.markdown`, then `"\n\n"` unless it is the last page
(`i < len(pages) - 1`), then save the page's images.  Returns the text
written to the Markdown file, the final file system and the log events. -/
def writePages (parse : DataUriParse) (writeOk : WriteOk) (output_dir : String) :
    List OcrPage → FS → String × FS × List LogEvent
  | [], fs => ("", fs, [])
  | page :: rest, fs =>
    let sep : String := if rest.isEmpty then "" else "\n\n"
    let r1 := pageImagesSave parse writeOk output_dir page fs
    let r2 := writePages parse writeOk output_dir rest r1.1
    (page.markdown ++ sep ++ r2.1, r2.2.1, r1.2 ++ r2.2.2)

/-- Embedding of `Path(output_file).parent` for POSIX-style paths without a
trailing slash: everything before the last `/`, or `.` when there is none. -/
def parentDir (p : String) : String :=
  let parts := p.splitOn "/"
  if parts.length ≤ 1 then "." else String.intercalate "/" parts.dropLast

/-- Embedding of `Path(p).name`: the final path component. -/
def fileName (p : String) : String :=
  (p.splitOn "/").getLastD ""

/-- Embedding of `create_markdown_file(ocr_response, output_file)`
(src lines 119-159).  `mdOpenOk` models whether the Markdown file can be
opened and written; an `IOError` there is fatal (`sys.exit(1)`), modelled
as `Except.error`.  On success the result carries the text content of the
Markdown file, the file system after the image writes, and the log
events. -/
def create_markdown_file (parse : DataUriParse) (writeOk : WriteOk)
    (mdOpenOk : Bool) (ocr_response : OcrResponse) (output_file : String)
    (fs : FS) : Except Unit (String × FS × List LogEvent) :=
  let output_dir := parentDir output_file
  if mdOpenOk then
    Except.ok (writePages parse writeOk output_dir ocr_response.pages fs)
  else
    Except.error ()

/-- Modelled from the spec: the expected Markdown body, pages joined with
exactly one blank-line separator between consecutive pages and none after
the last (used to state the round-trip claim about
`create_markdown_file`). -/
def specJoinPages : List String → String
  | [] => ""
  | [m] => m
  | m :: rest => m ++ "\n\n" ++ specJoinPages rest

/-- The constant `OCR_MODEL` (src line 24). -/
def OCR_MODEL : String := "mistral-ocr-latest"

/-- The constant `MISTRAL_API_KEY_ENV_VAR` (src line 23). -/
def MISTRAL_API_KEY_ENV_VAR : String := "MISTRAL_API_KEY"

/-- A network call made through the Mistral client, with the arguments
the script passes to it. -/
inductive NetCall where
  /-- call `client.files.upload(file={"file_name": ..., "content": ...}, purpose="ocr")` -/
  | upload (file_name : String)
  /-- call `client.files.get_signed_url(file_id=...)` -/
  | getSignedUrl (file_id : String)
  /-- call `client.ocr.process(model=..., document={"type": "document_url", "document_url": ...}, include_image_base64=...)` -/
  | ocrProcess (model : String) (document_url : String) (include_image_base64 : Bool)
deriving Repr, DecidableEq

/-- The parsed command-line arguments (`parse_args`, src lines 27-63). -/
structure Args where
  input_source : String
  output_file : String
  url : Bool
deriving Repr, DecidableEq

/-- The environment of a run: the process environment variable, the state
of the local path checks, and the behaviour of the remote service and of
the OS on this run.  Each `...Ok := false` models the corresponding call
raising an exception. -/
structure Env where
  /-- value of `os.environ["MISTRAL_API_KEY"]`, `none` when unset -/
  mistral_api_key : Option String
  /-- result of `Path(p).exists()` -/
  pathExists : String → Bool
  /-- result of `Path(p).is_file()` -/
  pathIsFile : String → Bool
  /-- whether `client.files.upload` returns without raising -/
  uploadOk : Bool
  /-- value `uploaded_pdf.id` returned by the upload -/
  uploadedId : String
  /-- whether `client.files.get_signed_url` returns without raising -/
  signedUrlOk : Bool
  /-- value `signed_url_response.url` returned by the signed-URL fetch -/
  signedUrl : String
  /-- whether `client.ocr.process` returns without raising -/
  ocrOk : Bool
  /-- value `ocr_response.pages` returned by the OCR call -/
  ocrPages : List OcrPage
  /-- the external `datauri.parse` behaviour -/
  parse : DataUriParse
  /-- OS success of each image byte write -/
  writeOk : WriteOk
  /-- OS success of opening/writing the output Markdown file -/
  mdOpenOk : Bool

/-- The observable outcome of one run of the script. -/
structure RunResult where
  /-- the argument of `sys.exit`, or `0` on normal return -/
  exitCode : Nat
  /-- the network calls attempted, in order -/
  calls : List NetCall
  /-- lines printed to standard error -/
  stderr : List String
  /-- warnings logged (`logging.warning` in `main`) -/
  warnings : List String
  /-- per-image log events from `create_markdown_file` -/
  events : List LogEvent
  /-- text content of the output Markdown file, when it was written -/
  mdContent : Option String
  /-- final local file system -/
  fs : FS
  /-- whether `print("Finished all!")` was reached -/
  stdoutFinished : Bool
deriving DecidableEq

/-- A run that terminates with `sys.exit(1)` before the Markdown file is
written. -/
def errRun (fs : FS) (calls : List NetCall) (stderr : List String)
    (warnings : List String) : RunResult :=
  { exitCode := 1, calls := calls, stderr := stderr, warnings := warnings,
    events := [], mdContent := none, fs := fs, stdoutFinished := false }

/-- The tail of `main` once `document_url` is determined (src lines
265-300): the `if not document_url` guard, the OCR call and the saving of
the results. -/
def afterLocator (env : Env) (args : Args) (fs0 : FS) (calls0 : List NetCall)
    (warns : List String) (document_url : String) : RunResult :=
  if document_url = "" then
    errRun fs0 calls0 [] warns
  else
    let calls := calls0 ++ [NetCall.ocrProcess OCR_MODEL document_url true]
    if env.ocrOk then
      match create_markdown_file env.parse env.writeOk env.mdOpenOk
          { pages := env.ocrPages } args.output_file fs0 with
      | Except.error _ => errRun fs0 calls [] warns
      | Except.ok r =>
        { exitCode := 0, calls := calls, stderr := [], warnings := warns,
          events := r.2.2, mdContent := some r.1, fs := r.2.1,
          stdoutFinished := true }
    else
      errRun fs0 calls [] warns

/-- Embedding of `main()` (src lines 162-300) on parsed arguments: the
API-key check, the URL/file branch producing `document_url` (with the
upload and signed-URL fetch in file mode), then `afterLocator`. -/
def main (env : Env) (args : Args) (fs0 : FS) : RunResult :=
  match env.mistral_api_key with
  | none =>
    errRun fs0 []
      ["Error: please set the environment variable " ++ MISTRAL_API_KEY_ENV_VAR] []
  | some _ =>
    if args.url then
      let document_url := args.input_source
      let warns :=
        if document_url.startsWith "http://" || document_url.startsWith "https://" then
          []
        else
          ["Warning: input source " ++ document_url ++ " may not be a URL"]
      afterLocator env args fs0 [] warns document_url
    else
      if env.pathExists args.input_source && env.pathIsFile args.input_source then
        let calls1 := [NetCall.upload (fileName args.input_source)]
        if env.uploadOk then
          let calls2 := calls1 ++ [NetCall.getSignedUrl env.uploadedId]
          if env.signedUrlOk then
            afterLocator env args fs0 calls2 [] env.signedUrl
          else
            errRun fs0 calls2 [] []
        else
          errRun fs0 calls1 [] []
      else
        errRun fs0 []
          ["Error: " ++ args.input_source ++ " is not a valid file"] []

/-! Concrete fixtures used by the witness theorems. -/

/-- A `datauri.parse` that rejects every payload. -/
def parseNone : DataUriParse := fun _ => Except.error ()

/-- A `datauri.parse` that accepts exactly the payload `"data:ok"`. -/
def parseDemo : DataUriParse := fun s =>
  if s = "data:ok" then Except.ok [1, 2, 3] else Except.error ()

/-- An OS on which every byte write succeeds. -/
def wOkAll : WriteOk := fun _ _ => true

/-- An OS on which every byte write fails with `IOError`. -/
def wOkNone : WriteOk := fun _ _ => false

/-- An image whose payload is not a valid data URI. -/
def imgBad : OcrImage := { id := "img-bad", image_base64 := some "notauri" }

/-- An image whose payload is absent (`None`). -/
def imgEmpty : OcrImage := { id := "img-empty", image_base64 := none }

/-- An image with a well-formed payload accepted by `parseDemo`. -/
def imgGood : OcrImage := { id := "img-good", image_base64 := some "data:ok" }

/-- A page carrying the malformed image. -/
def pageBad : OcrPage := { markdown := "Page one", images := [imgBad] }

/-- A nominal environment: key set, every path an existing file, every
remote call succeeding, an empty OCR result. -/
def envBase : Env :=
  { mistral_api_key := some "key"
    pathExists := fun _ => true
    pathIsFile := fun _ => true
    uploadOk := true
    uploadedId := "file-123"
    signedUrlOk := true
    signedUrl := "https://signed.example/doc"
    ocrOk := true
    ocrPages := []
    parse := parseNone
    writeOk := wOkAll
    mdOpenOk := true }

/-- The nominal environment with one page holding a malformed image. -/
def envBad : Env := { envBase with ocrPages := [pageBad] }

/-- The nominal environment with the API-key variable unset. -/
def envNoKey : Env := { envBase with mistral_api_key := none }

/-- The nominal environment where no path exists. -/
def envNoFile : Env := { envBase with pathExists := fun _ => false }

/-- URL-mode arguments with an absolute https source. -/
def argsUrl : Args :=
  { input_source := "https://example.com/doc.pdf", output_file := "out/x.md", url := true }

/-- URL-mode arguments whose source is the empty string. -/
def argsUrlEmpty : Args :=
  { input_source := "", output_file := "out/x.md", url := true }

/-- File-mode arguments. -/
def argsFile : Args :=
  { input_source := "docs/report.pdf", output_file := "out/report.md", url := false }

/-- Two OCR responses with the same page markdown but different images. -/
def respA : OcrResponse :=
  { pages := [{ markdown := "Page one", images := [imgBad, imgGood] }] }

/-- Companion of `respA` with no images at all. -/
def respB : OcrResponse :=
  { pages := [{ markdown := "Page one", images := [] }] }

/-! Helper lemmas shared by the claim theorems. -/

/-- Accumulator lemma for `String.intercalate.go`. -/
lemma intercalate_go_append (s : String) : ∀ (l : List String) (a b : String),
    String.intercalate.go (a ++ b) s l = a ++ String.intercalate.go b s l := by
  intro l
  induction l with
  | nil => intro a b; rfl
  | cons c l ih =>
    intro a b
    simp only [String.intercalate.go]
    rw [String.append_assoc, String.append_assoc, ← String.append_assoc b s c]
    exact ih a (b ++ s ++ c)

/-- Unfolding lemma: `String.intercalate` on a list of two or more
elements peels off the head and one separator. -/
lemma intercalate_cons_cons (s a b : String) (l : List String) :
    String.intercalate s (a :: b :: l) = a ++ s ++ String.intercalate s (b :: l) := by
  show String.intercalate.go a s (b :: l) = a ++ s ++ String.intercalate.go b s l
  simp only [String.intercalate.go]
  exact intercalate_go_append s l (a ++ s) b

/-- The text component of `writePages` is the pages' markdown joined by
one blank-line separator, independent of the file-system state. -/
lemma writePages_fst (parse : DataUriParse) (writeOk : WriteOk) (dir : String) :
    ∀ (pages : List OcrPage) (fs : FS),
      (writePages parse writeOk dir pages fs).1
        = String.intercalate "\n\n" (pages.map OcrPage.markdown) := by
  intro pages
  induction pages with
  | nil => intro fs; rfl
  | cons p rest ih =>
    intro fs
    cases rest with
    | nil =>
      simp [writePages, String.intercalate, String.intercalate.go]
    | cons q rs =>
      rw [List.map_cons, List.map_cons, intercalate_cons_cons, ← List.map_cons]
      rw [← ih (pageImagesSave parse writeOk dir p fs).1]
      rfl

/-- The spec-side join agrees with `String.intercalate "\n\n"`. -/
lemma specJoinPages_eq_intercalate :
    ∀ (l : List String), specJoinPages l = String.intercalate "\n\n" l := by
  intro l
  induction l with
  | nil => rfl
  | cons a l ih =>
    cases l with
    | nil => rfl
    | cons b m =>
      show a ++ "\n\n" ++ specJoinPages (b :: m) = _
      rw [intercalate_cons_cons, ih]

/-- On a payload rejected by `datauri.parse`, `save_image` leaves every
file system unchanged and only records a decode error. -/
lemma save_image_malformed (parse : DataUriParse) (writeOk : WriteOk)
    (img : OcrImage) (s : String) (hs : img.image_base64 = some s)
    (hsne : s ≠ "") (hparse : parse s = Except.error ()) :
    ∀ (dir : String) (fs : FS),
      save_image parse writeOk img dir fs = (fs, [LogEvent.decodeError img.id]) := by
  intro dir fs
  simp [save_image, hs, hsne, hparse]

/-- An event that `save_image` produces for an image, independently of the
file-system state, appears in the events of the image loop containing that
image. -/
lemma saveImages_mem (parse : DataUriParse) (writeOk : WriteOk) (dir : String)
    (img : OcrImage) (e : LogEvent)
    (h : ∀ fs, (save_image parse writeOk img dir fs).2 = [e]) :
    ∀ (l : List OcrImage) (fs : FS), img ∈ l →
      e ∈ (saveImages parse writeOk dir l fs).2 := by
  intro l
  induction l with
  | nil => intro fs hm; cases hm
  | cons a l ih =>
    intro fs hm
    simp only [saveImages, List.mem_append]
    rcases List.mem_cons.mp hm with rfl | hm
    · left
      rw [h fs]
      exact List.mem_singleton.mpr rfl
    · right
      exact ih _ hm

/-- Lifting of `saveImages_mem` through the page loop. -/
lemma writePages_mem (parse : DataUriParse) (writeOk : WriteOk) (dir : String)
    (img : OcrImage) (e : LogEvent)
    (h : ∀ fs, (save_image parse writeOk img dir fs).2 = [e]) :
    ∀ (pages : List OcrPage) (fs : FS) (page : OcrPage),
      page ∈ pages → img ∈ page.images →
      e ∈ (writePages parse writeOk dir pages fs).2.2 := by
  intro pages
  induction pages with
  | nil => intro fs page hp _; cases hp
  | cons p rest ih =>
    intro fs page hp hi
    simp only [writePages, List.mem_append]
    rcases List.mem_cons.mp hp with rfl | hp
    · left
      have hne : ¬page.images.isEmpty := by
        cases hImgs : page.images with
        | nil => rw [hImgs] at hi; cases hi
        | cons a l => simp [hImgs]
      simp only [pageImagesSave, if_neg hne]
      exact saveImages_mem parse writeOk dir img e h _ _ hi
    · right
      exact ih _ page hp hi

/-- Full reduction of `main` on the successful URL-mode path. -/
lemma main_url_reduce (env : Env) (args : Args) (fs0 : FS) (k : String)
    (hkey : env.mistral_api_key = some k) (hurl : args.url = true)
    (hne : args.input_source ≠ "") (hocr : env.ocrOk = true)
    (hmd : env.mdOpenOk = true) :
    main env args fs0 =
      { exitCode := 0
        calls := [NetCall.ocrProcess OCR_MODEL args.input_source true]
        stderr := []
        warnings :=
          if args.input_source.startsWith "http://" || args.input_source.startsWith "https://" then
            []
          else
            ["Warning: input source " ++ args.input_source ++ " may not be a URL"]
        events := (writePages env.parse env.writeOk (parentDir args.output_file) env.ocrPages fs0).2.2
        mdContent := some (writePages env.parse env.writeOk (parentDir args.output_file) env.ocrPages fs0).1
        fs := (writePages env.parse env.writeOk (parentDir args.output_file) env.ocrPages fs0).2.1
        stdoutFinished := true } := by
  unfold main
  rw [hkey]
  simp only [hurl, if_true]
  unfold afterLocator
  rw [if_neg hne]
  simp [hocr, create_markdown_file, hmd]

/-! Claim theorems. -/

/-- C1: for every OCR document, the text content of the produced Markdown
file is the concatenation of the pages' markdown texts, verbatim and in
page order, with exactly one blank-line separator between consecutive
pages and none after the last (N pages yield N-1 separators). -/
theorem c1_markdown_roundtrip (parse : DataUriParse) (writeOk : WriteOk)
    (resp : OcrResponse) (output_file : String) (fs : FS) :
    (create_markdown_file parse writeOk true resp output_file fs).map (fun r => r.1)
      = Except.ok (specJoinPages (resp.pages.map OcrPage.markdown)) := by
  simp [create_markdown_file, Except.map, writePages_fst, specJoinPages_eq_intercalate]

/-- C2 counterexample: with the url flag set and `sourceValue` the empty
string (a value that is not an absolute http/https URL), the run exits
with status 1 and performs no network call at all — the `if not
document_url` guard makes this more than a non-fatal warning, refuting
the claim as stated. -/
theorem c2_url_counterexample :
    (main envBase argsUrlEmpty []).exitCode = 1
    ∧ (main envBase argsUrlEmpty []).calls = [] := ⟨rfl, rfl⟩

/-- C2 (amended): with the url flag set and a nonempty `sourceValue`, the
program performs zero network calls before OCR and passes `sourceValue`
unchanged as the document locator of the only network call, the OCR call;
the format warning is emitted exactly when the source does not start with
http:// or https://, and is non-fatal. -/
theorem c2_url_zero_precalls (env : Env) (args : Args) (fs0 : FS) (k : String)
    (hkey : env.mistral_api_key = some k) (hurl : args.url = true)
    (hne : args.input_source ≠ "") :
    (main env args fs0).calls = [NetCall.ocrProcess OCR_MODEL args.input_source true]
    ∧ ((main env args fs0).warnings = [] ↔
        (args.input_source.startsWith "http://"
          || args.input_source.startsWith "https://") = true) := by
  unfold main
  rw [hkey]
  simp only [hurl, if_true]
  unfold afterLocator
  rw [if_neg hne]
  cases hsw : (args.input_source.startsWith "http://" || args.input_source.startsWith "https://") <;>
    simp only [hsw] <;> constructor
  all_goals
    split
    · split <;> simp [errRun]
    · simp [errRun]

/-- C2 witness: the amended claim at a concrete absolute https URL. -/
theorem c2_url_zero_precalls_witness :
    envBase.mistral_api_key = some "key" ∧ argsUrl.url = true ∧ argsUrl.input_source ≠ ""
    ∧ ((main envBase argsUrl []).calls
         = [NetCall.ocrProcess OCR_MODEL argsUrl.input_source true]
       ∧ ((main envBase argsUrl []).warnings = [] ↔
           (argsUrl.input_source.startsWith "http://"
             || argsUrl.input_source.startsWith "https://") = true)) :=
  ⟨rfl, rfl, by decide,
    c2_url_zero_precalls envBase argsUrl [] "key" rfl rfl (by decide)⟩

/-- C3: in file mode, when the path is an existing regular file and the
remote calls succeed, the run performs exactly one upload, then exactly
one signed-URL fetch, and passes the returned signed URL unmodified as
the document locator of the OCR call. -/
theorem c3_file_upload_calls (env : Env) (args : Args) (fs0 : FS) (k : String)
    (hkey : env.mistral_api_key = some k) (hurl : args.url = false)
    (hex : env.pathExists args.input_source = true)
    (hf : env.pathIsFile args.input_source = true)
    (hup : env.uploadOk = true) (hsu : env.signedUrlOk = true)
    (hne : env.signedUrl ≠ "") :
    (main env args fs0).calls =
      [NetCall.upload (fileName args.input_source),
       NetCall.getSignedUrl env.uploadedId,
       NetCall.ocrProcess OCR_MODEL env.signedUrl true] := by
  unfold main
  rw [hkey]
  simp only [hurl, Bool.false_eq_true, if_false, hex, hf, Bool.and_self, if_true,
    hup, hsu]
  unfold afterLocator
  rw [if_neg hne]
  split
  · split <;> simp [errRun]
  · simp [errRun]

/-- C3 witness: the file-mode call sequence at a concrete input. -/
theorem c3_file_upload_calls_witness :
    envBase.mistral_api_key = some "key" ∧ argsFile.url = false
    ∧ envBase.pathExists argsFile.input_source = true
    ∧ envBase.pathIsFile argsFile.input_source = true
    ∧ envBase.uploadOk = true ∧ envBase.signedUrlOk = true ∧ envBase.signedUrl ≠ ""
    ∧ (main envBase argsFile []).calls
        = [NetCall.upload (fileName argsFile.input_source),
           NetCall.getSignedUrl envBase.uploadedId,
           NetCall.ocrProcess OCR_MODEL envBase.signedUrl true] :=
  ⟨rfl, rfl, rfl, rfl, rfl, rfl, by decide,
    c3_file_upload_calls envBase argsFile [] "key" rfl rfl rfl rfl rfl rfl (by decide)⟩

/-- C4: an image whose payload is `None` or empty is skipped: `save_image`
writes no file and raises no error (it records only a warning), and the
image loop continues over the remaining images from the same file-system
state. -/
theorem c4_empty_payload_noop (parse : DataUriParse) (writeOk : WriteOk)
    (img : OcrImage) (rest : List OcrImage) (dir : String) (fs : FS)
    (h : img.image_base64 = none ∨ img.image_base64 = some "") :
    save_image parse writeOk img dir fs = (fs, [LogEvent.emptyImage img.id])
    ∧ (saveImages parse writeOk dir (img :: rest) fs).1
        = (saveImages parse writeOk dir rest fs).1
    ∧ (saveImages parse writeOk dir (img :: rest) fs).2
        = LogEvent.emptyImage img.id :: (saveImages parse writeOk dir rest fs).2 := by
  have h1 : save_image parse writeOk img dir fs = (fs, [LogEvent.emptyImage img.id]) := by
    rcases h with h | h <;> simp [save_image, h]
  refine ⟨h1, ?_, ?_⟩ <;> simp [saveImages, h1]

/-- C4 witness: an absent payload at concrete inputs. -/
theorem c4_empty_payload_noop_witness :
    (imgEmpty.image_base64 = none ∨ imgEmpty.image_base64 = some "")
    ∧ (save_image parseNone wOkAll imgEmpty "out" [] = ([], [LogEvent.emptyImage imgEmpty.id])
       ∧ (saveImages parseNone wOkAll "out" [imgEmpty] []).1
           = (saveImages parseNone wOkAll "out" [] []).1
       ∧ (saveImages parseNone wOkAll "out" [imgEmpty] []).2
           = LogEvent.emptyImage imgEmpty.id :: (saveImages parseNone wOkAll "out" [] []).2) :=
  ⟨Or.inl rfl, c4_empty_payload_noop parseNone wOkAll imgEmpty [] "out" [] (Or.inl rfl)⟩

/-- C5: an image whose payload fails to parse as a data URI leads to a
recorded `ImageDecodeError` for that image, no file write for it (the
file system is passed on unchanged), the remaining images and pages are
still processed, and the run still exits with status 0 when nothing else
fails. -/
theorem c5_malformed_nonfatal (env : Env) (args : Args) (fs0 : FS) (k s : String)
    (page : OcrPage) (img : OcrImage)
    (hkey : env.mistral_api_key = some k) (hurl : args.url = true)
    (hne : args.input_source ≠ "") (hocr : env.ocrOk = true) (hmd : env.mdOpenOk = true)
    (hpage : page ∈ env.ocrPages) (himg : img ∈ page.images)
    (hs : img.image_base64 = some s) (hsne : s ≠ "")
    (hparse : env.parse s = Except.error ()) :
    (∀ (dir : String) (fs : FS),
        save_image env.parse env.writeOk img dir fs = (fs, [LogEvent.decodeError img.id]))
    ∧ LogEvent.decodeError img.id ∈ (main env args fs0).events
    ∧ (main env args fs0).exitCode = 0
    ∧ (main env args fs0).stdoutFinished = true := by
  have hsave := save_image_malformed env.parse env.writeOk img s hs hsne hparse
  have hred := main_url_reduce env args fs0 k hkey hurl hne hocr hmd
  refine ⟨hsave, ?_, ?_, ?_⟩
  · rw [hred]
    exact writePages_mem env.parse env.writeOk (parentDir args.output_file) img _
      (fun fs => by rw [hsave _ fs]) env.ocrPages fs0 page hpage himg
  · rw [hred]
  · rw [hred]

/-- C5 witness: a run over one page with one malformed image. -/
theorem c5_malformed_nonfatal_witness :
    envBad.mistral_api_key = some "key" ∧ argsUrl.url = true ∧ argsUrl.input_source ≠ ""
    ∧ envBad.ocrOk = true ∧ envBad.mdOpenOk = true
    ∧ pageBad ∈ envBad.ocrPages ∧ imgBad ∈ pageBad.images
    ∧ imgBad.image_base64 = some "notauri" ∧ envBad.parse "notauri" = Except.error ()
    ∧ ((∀ (dir : String) (fs : FS),
          save_image envBad.parse envBad.writeOk imgBad dir fs
            = (fs, [LogEvent.decodeError imgBad.id]))
       ∧ LogEvent.decodeError imgBad.id ∈ (main envBad argsUrl []).events
       ∧ (main envBad argsUrl []).exitCode = 0
       ∧ (main envBad argsUrl []).stdoutFinished = true) :=
  ⟨rfl, rfl, by decide, rfl, rfl, by decide, by decide, rfl, rfl,
    c5_malformed_nonfatal envBad argsUrl [] "key" "notauri" pageBad imgBad
      rfl rfl (by decide) rfl rfl (by decide) (by decide) rfl (by decide) rfl⟩

/-- C6: an image with a well-formed data-URI payload decoding to bytes `B`
is written to `<output-directory>/<image.id>` (no extension appended),
the file containing exactly `B` and any previous file of that name being
overwritten (the result holds for every prior file-system state). -/
theorem c6_wellformed_written (parse : DataUriParse) (writeOk : WriteOk)
    (img : OcrImage) (dir s : String) (B : Bytes) (fs : FS)
    (hs : img.image_base64 = some s) (hsne : s ≠ "")
    (hp : parse s = Except.ok B)
    (hw : writeOk (dir ++ "/" ++ img.id) B = true) :
    save_image parse writeOk img dir fs
      = (fsWrite fs (dir ++ "/" ++ img.id) B, [])
    ∧ fsRead (save_image parse writeOk img dir fs).1 (dir ++ "/" ++ img.id) = some B := by
  have h1 : save_image parse writeOk img dir fs
      = (fsWrite fs (dir ++ "/" ++ img.id) B, []) := by
    simp [save_image, hs, hsne, hp, hw]
  refine ⟨h1, ?_⟩
  rw [h1]
  simp [fsRead, fsWrite, List.find?]

/-- C6 witness: a valid payload overwriting an existing file. -/
theorem c6_wellformed_written_witness :
    imgGood.image_base64 = some "data:ok"
    ∧ parseDemo "data:ok" = Except.ok ([1, 2, 3] : Bytes)
    ∧ wOkAll ("out" ++ "/" ++ imgGood.id) [1, 2, 3] = true
    ∧ (save_image parseDemo wOkAll imgGood "out" [("out/img-good", [9])]
         = (fsWrite [("out/img-good", [9])] ("out" ++ "/" ++ imgGood.id) [1, 2, 3], [])
       ∧ fsRead (save_image parseDemo wOkAll imgGood "out" [("out/img-good", [9])]).1
           ("out" ++ "/" ++ imgGood.id) = some [1, 2, 3]) :=
  ⟨rfl, rfl, rfl,
    c6_wellformed_written parseDemo wOkAll imgGood "out" "data:ok" [1, 2, 3]
      [("out/img-good", [9])] rfl (by decide) rfl rfl⟩

/-- C7: when the API-key environment variable is absent, the process
exits with status 1 before any network call is attempted and writes a
human-readable line to standard error. -/
theorem c7_missing_key (env : Env) (args : Args) (fs0 : FS)
    (hkey : env.mistral_api_key = none) :
    (main env args fs0).exitCode = 1 ∧ (main env args fs0).calls = []
    ∧ (main env args fs0).stderr ≠ [] := by
  unfold main
  rw [hkey]
  simp [errRun]

/-- C7 witness: a concrete run with the key unset. -/
theorem c7_missing_key_witness :
    envNoKey.mistral_api_key = none
    ∧ ((main envNoKey argsUrl []).exitCode = 1 ∧ (main envNoKey argsUrl []).calls = []
       ∧ (main envNoKey argsUrl []).stderr ≠ []) :=
  ⟨rfl, c7_missing_key envNoKey argsUrl [] rfl⟩

/-- C8: when the url flag is unset and the input path does not exist or
is not a regular file, the process exits with status 1 before any network
call (upload, signed-URL fetch or OCR) is attempted, with a line on
standard error (when the key is also missing the run likewise exits 1
with no network call). -/
theorem c8_invalid_input (env : Env) (args : Args) (fs0 : FS)
    (hurl : args.url = false)
    (h : env.pathExists args.input_source = false
         ∨ env.pathIsFile args.input_source = false) :
    (main env args fs0).exitCode = 1 ∧ (main env args fs0).calls = []
    ∧ (main env args fs0).stderr ≠ [] := by
  unfold main
  cases hkey : env.mistral_api_key with
  | none => simp [errRun]
  | some k =>
    simp only [hurl, Bool.false_eq_true, if_false]
    rcases h with h | h <;> simp [h, errRun]

/-- C8 witness: a concrete run on a non-existent path. -/
theorem c8_invalid_input_witness :
    argsFile.url = false
    ∧ (envNoFile.pathExists argsFile.input_source = false
       ∨ envNoFile.pathIsFile argsFile.input_source = false)
    ∧ ((main envNoFile argsFile []).exitCode = 1 ∧ (main envNoFile argsFile []).calls = []
       ∧ (main envNoFile argsFile []).stderr ≠ []) :=
  ⟨rfl, Or.inl rfl, c8_invalid_input envNoFile argsFile [] rfl (Or.inl rfl)⟩

/-- C9: an empty page sequence in the OCR response is not an error: the
Markdown file is still created with empty body and the run completes with
exit status 0 and the final success message. -/
theorem c9_empty_pages (env : Env) (args : Args) (fs0 : FS) (k : String)
    (hkey : env.mistral_api_key = some k) (hurl : args.url = true)
    (hne : args.input_source ≠ "") (hocr : env.ocrOk = true)
    (hmd : env.mdOpenOk = true) (hpages : env.ocrPages = []) :
    (main env args fs0).exitCode = 0
    ∧ (main env args fs0).mdContent = some ""
    ∧ (main env args fs0).stdoutFinished = true := by
  rw [main_url_reduce env args fs0 k hkey hurl hne hocr hmd]
  simp [hpages, writePages]

/-- C9 witness: a concrete run whose OCR response has no pages. -/
theorem c9_empty_pages_witness :
    envBase.mistral_api_key = some "key" ∧ argsUrl.url = true
    ∧ argsUrl.input_source ≠ "" ∧ envBase.ocrOk = true ∧ envBase.mdOpenOk = true
    ∧ envBase.ocrPages = []
    ∧ ((main envBase argsUrl []).exitCode = 0
       ∧ (main envBase argsUrl []).mdContent = some ""
       ∧ (main envBase argsUrl []).stdoutFinished = true) :=
  ⟨rfl, rfl, by decide, rfl, rfl, rfl,
    c9_empty_pages envBase argsUrl [] "key" rfl rfl (by decide) rfl rfl rfl⟩

/-- C10: the text content of the output Markdown file is a function of
the page markdown sequence alone — two responses with identical per-page
markdown but arbitrary differences in image payloads, decode outcomes,
write outcomes, output paths or prior file systems yield identical
Markdown text. -/
theorem c10_md_independent (parse₁ parse₂ : DataUriParse) (w₁ w₂ : WriteOk)
    (resp₁ resp₂ : OcrResponse) (out₁ out₂ : String) (fs₁ fs₂ : FS)
    (h : resp₁.pages.map OcrPage.markdown = resp₂.pages.map OcrPage.markdown) :
    (create_markdown_file parse₁ w₁ true resp₁ out₁ fs₁).map (fun r => r.1)
      = (create_markdown_file parse₂ w₂ true resp₂ out₂ fs₂).map (fun r => r.1) := by
  simp [create_markdown_file, Except.map, writePages_fst, h]

/-- C10 witness: same markdown, entirely different image circumstances. -/
theorem c10_md_independent_witness :
    respA.pages.map OcrPage.markdown = respB.pages.map OcrPage.markdown
    ∧ (create_markdown_file parseDemo wOkAll true respA "out/a.md" []).map (fun r => r.1)
        = (create_markdown_file parseNone wOkNone true respB "b.md" [("q", [9])]).map (fun r => r.1) :=
  ⟨by decide,
    c10_md_independent parseDemo parseNone wOkAll wOkNone respA respB
      "out/a.md" "b.md" [] [("q", [9])] (by decide)⟩

end MistralOcr
